import Mathlib

/-!
Verification development for the code-agent benchmark evaluator
(`src/components/orchestrator.py`, `src/evaluators/code_gen_evaluator.py`,
`src/utils/test_runner.py`).

Strings are modelled as `List Char`.  Python's `str.strip`, `str.count`,
substring membership (`in`), `str.split`, `str.startswith` and the regex
`findall` used by the code extractor are embedded as executable functions
below.  Numeric scores are modelled as rationals; Python integers are `Int`
(the failed-count sentinel is `-1`).
-/

namespace Benchmark

/-- Python `str.strip` whitespace set (ASCII part used by the repository). -/
def pyWhitespace (c : Char) : Bool :=
  c = ' ' || c = '\t' || c = '\n' || c = '\r' || c = '\x0b' || c = '\x0c'

/-- Python `s.strip()`: drop whitespace from both ends. -/
def pyStrip (s : List Char) : List Char :=
  List.rdropWhile pyWhitespace (s.dropWhile pyWhitespace)

/-- Python substring membership `pat in s` (non-empty or empty pattern). -/
def containsSub (pat : List Char) : List Char → Bool
  | [] => pat.isEmpty
  | c :: rest => pat.isPrefixOf (c :: rest) || containsSub pat rest

/-- First occurrence of `pat` as a contiguous substring of `s`: returns the
text before the occurrence and the text after it.  `none` when `pat` (assumed
non-empty here) does not occur. -/
def splitAtSub (pat : List Char) : List Char → Option (List Char × List Char)
  | [] => none
  | c :: rest =>
    if pat.isPrefixOf (c :: rest) then some ([], (c :: rest).drop pat.length)
    else
      match splitAtSub pat rest with
      | some pr => some (c :: pr.1, pr.2)
      | none => none

/-- The triple-backtick fence marker of the extraction regex. -/
def tripleTick : List Char := "```".data

/-- After an opening fence, the regex optionally consumes a literal language
tag `python` and then an optional newline, in that order. -/
def stripLang (rest : List Char) : List Char :=
  let r1 := if ("python".data).isPrefixOf rest then rest.drop 6 else rest
  match r1 with
  | '\n' :: t => t
  | r => r

/-- Fuelled worker for `findBlocks`.  Each emitted block consumes at least six
characters of the input, so fuel `s.length` never runs out before the matches
do. -/
def findBlocksF : Nat → List Char → List (List Char)
  | 0, _ => []
  | fuel + 1, s =>
    match splitAtSub tripleTick s with
    | none => []
    | some pr =>
      match splitAtSub tripleTick (stripLang pr.2) with
      | none => []
      | some qr => qr.1 :: findBlocksF fuel qr.2

/-- Embedding of `re.findall` applied to the extraction pattern (triple
backticks, optional `python` tag, optional newline, lazy body up to the next
triple backticks, `DOTALL`): the list of captured block bodies, scanning left
to right without overlap. -/
def findBlocks (s : List Char) : List (List Char) := findBlocksF s.length s

/-- The block filter of `_clean_code_submission`: Python
`"def " in block or "import " in block`. -/
def hasDefOrImport (block : List Char) : Bool :=
  containsSub "def ".data block || containsSub "import ".data block

/-- The for-loop over blocks in `_clean_code_submission`: return the first
block containing a definition or import, if any. -/
def firstGoodBlock : List (List Char) → Option (List Char)
  | [] => none
  | b :: bs => if hasDefOrImport b then some b else firstGoodBlock bs

/-- Line trigger of the fallback scan: Python
`line.strip().startswith("import ") or ... ("from ") or ... ("def ")`. -/
def triggers (line : List Char) : Bool :=
  ("import ".data).isPrefixOf (pyStrip line) ||
  ("from ".data).isPrefixOf (pyStrip line) ||
  ("def ".data).isPrefixOf (pyStrip line)

/-- The accumulation loop of `_clean_code_submission`: `inCode` starts false,
becomes true at the first triggering line, and from then on every line is
kept. -/
def scanLines : List (List Char) → Bool → List (List Char)
  | [], _ => []
  | l :: ls, inCode =>
    let inCode2 := inCode || triggers l
    if inCode2 then l :: scanLines ls inCode2 else scanLines ls inCode2

/-- Embedding of `BenchmarkOrchestrator._clean_code_submission`. -/
def clean (submission : List Char) : List Char :=
  let s := pyStrip submission
  match findBlocks s with
  | b0 :: bs =>
    match firstGoodBlock (b0 :: bs) with
    | some b => pyStrip b
    | none => pyStrip b0
  | [] =>
    let cleaned := scanLines (s.splitOn '\n') false
    if cleaned.isEmpty then pyStrip s
    else pyStrip (List.intercalate ['\n'] cleaned)

/-- Reference extractor, following the words of the specification (§4.1):
strip the input; if fenced blocks exist, return the first block body
containing an import statement or a function-definition keyword, else the
first block body, stripped (the specification's own worked example
`"Sure! ..."` shows the returned qualifying body is also stripped of its
trailing newline); otherwise accumulate lines from the first line starting
with an import-style or definition keyword through the end, joined and
stripped; otherwise the original stripped input. -/
def cleanSpec (submission : List Char) : List Char :=
  let s := pyStrip submission
  match findBlocks s with
  | b0 :: bs =>
    match (b0 :: bs).find? hasDefOrImport with
    | some b => pyStrip b
    | none => pyStrip b0
  | [] =>
    let tail := (s.splitOn '\n').dropWhile (fun l => !(triggers l))
    if tail.isEmpty then s
    else pyStrip (List.intercalate ['\n'] tail)

/-- Fuelled worker for `countOccur`; every step consumes at least one
character of a non-empty pattern search, so fuel `s.length + 1` suffices. -/
def countOccurF : Nat → List Char → List Char → Nat
  | 0, _, _ => 0
  | fuel + 1, pat, s =>
    match s with
    | [] => 0
    | c :: rest =>
      if pat.isPrefixOf (c :: rest) then
        1 + countOccurF fuel pat ((c :: rest).drop pat.length)
      else countOccurF fuel pat rest

/-- Python `s.count(pat)` for a non-empty pattern: non-overlapping
occurrences, scanning left to right. -/
def countOccur (pat s : List Char) : Nat := countOccurF (s.length + 1) pat s

/-- Outcome of the `subprocess.run` call inside `TestRunner.run_tests`:
normal completion with exit code and captured streams, a
`subprocess.TimeoutExpired`, or any other launch/execution exception. -/
inductive ExecOutcome where
  | completed (returncode : Int) (stdout stderr : List Char)
  | timeout
  | launchError (msg : List Char)
deriving DecidableEq

/-- The dictionary returned by `TestRunner.run_tests`. -/
structure RunnerResult where
  passed : Bool
  num_passed : Int
  num_failed : Int
  errors : List (List Char)
  output : List Char
deriving DecidableEq

/-- Error-line filter of `run_tests`: Python
`"FAILED" in line or "ERROR" in line`. -/
def hasErrorMarker (line : List Char) : Bool :=
  containsSub "FAILED".data line || containsSub "ERROR".data line

/-- The hard timeout configured in `TestRunner.__init__` (seconds). -/
def runnerTimeout : Nat := 60

/-- Synthetic error entry produced on `subprocess.TimeoutExpired`. -/
def timeoutMsg : List Char := "Test execution timed out after 60s".data

/-- Embedding of `TestRunner.run_tests`, as a function of the subprocess
outcome.  On normal completion the transcript is `stdout + stderr`, the pass
boolean is `returncode == 0`, the counts are substring-occurrence counts of
the pytest markers, and error lines are collected only when the run did not
pass.  On timeout or any other exception a sentinel result is returned. -/
def runTests : ExecOutcome → RunnerResult
  | .completed rc out err =>
    let output := out ++ err
    let passed := rc == 0
    let np := countOccur " PASSED".data output
    let nf := countOccur " FAILED".data output
    let errors := if passed then [] else (output.splitOn '\n').filter hasErrorMarker
    ⟨passed, (np : Int), (nf : Int), errors, output⟩
  | .timeout => ⟨false, 0, -1, [timeoutMsg], []⟩
  | .launchError m => ⟨false, 0, -1, ["Test execution error: ".data ++ m], []⟩

/-- The `details` dictionary assembled by `CodeGenerationEvaluator.evaluate`. -/
structure EvalDetails where
  tests_passed : Int
  tests_failed : Int
  test_pass_rate : ℚ
  errors : List (List Char)
  test_output : List Char
deriving DecidableEq

/-- The dictionary returned by `CodeGenerationEvaluator.evaluate`. -/
structure EvalResult where
  score : ℚ
  passed : Bool
  details : EvalDetails
deriving DecidableEq

/-- The two ways `evaluate` can proceed after the file-path check: the
submission named an existing `.py` file that could not be read, or the test
runner was invoked and produced a subprocess outcome. -/
inductive EvalInput where
  | fileReadError (msg : List Char)
  | run (oc : ExecOutcome)
deriving DecidableEq

/-- The pass-rate computation of `evaluate`:
`num_passed / (num_passed + num_failed)` when the guard
`num_passed + num_failed > 0` holds, else `0.0`. -/
def passRate (np nf : Int) : ℚ :=
  if np + nf > 0 then (np : ℚ) / ((np : ℚ) + (nf : ℚ)) else 0

/-- The score arithmetic of `evaluate` (lines 90-103 of
`code_gen_evaluator.py`). -/
def evaluateScore (np nf : Int) (tests_passed : Bool) : ℚ :=
  let pass_rate := passRate np nf
  let correctness_score := if tests_passed then (1 : ℚ) else pass_rate
  let quality_score := if tests_passed then (1 : ℚ) else 0.5
  0.50 * pass_rate + 0.30 * correctness_score + 0.20 * quality_score

/-- Embedding of `CodeGenerationEvaluator.evaluate` downstream of the
file-path check: either the early file-read-error return, or the test run
followed by scoring. -/
def evaluate : EvalInput → EvalResult
  | .fileReadError msg =>
    ⟨0, false,
      ⟨0, 0, 0, ["Failed to read code file: ".data ++ msg],
        "File read error: ".data ++ msg⟩⟩
  | .run oc =>
    let tr := runTests oc
    ⟨evaluateScore tr.num_passed tr.num_failed tr.passed, tr.passed,
      ⟨tr.num_passed, tr.num_failed, passRate tr.num_passed tr.num_failed,
        tr.errors, tr.output⟩⟩

/-- The `details` field of a `TaskResult`: either the evaluator's details or
the `{"error": str(e)}` mapping built in the loop's exception handler. -/
inductive TaskDetails where
  | evalDetails (d : EvalDetails)
  | errorDetails (msg : List Char)
deriving DecidableEq

/-- Embedding of `TaskResult` (score, pass boolean and details; the textual
identifier fields are irrelevant to the claims). -/
structure TaskResult where
  score : ℚ
  passed : Bool
  details : TaskDetails
deriving DecidableEq

/-- Outcome of one task's pipeline as seen by the `try` block of
`run_benchmark`: an exception escaping submission retrieval, extraction or
evaluation (`Except.error`), or a completed evaluation on some input. -/
abbrev PipelineOutcome := Except (List Char) EvalInput

/-- One iteration of the evaluation loop of `run_benchmark`: a normal
evaluation result is packaged as a `TaskResult`; a caught exception yields
score `0.0`, `passed = false` and an error details entry. -/
def processTask : PipelineOutcome → TaskResult
  | .error e => ⟨0, false, .errorDetails e⟩
  | .ok i =>
    let r := evaluate i
    ⟨r.score, r.passed, .evalDetails r.details⟩

/-- Embedding of `BenchmarkResult`. -/
structure BenchmarkResult where
  total_tasks : Nat
  tasks_passed : Nat
  tasks_failed : Int
  average_score : ℚ
  task_results : List TaskResult
deriving DecidableEq

/-- The aggregation at the end of `run_benchmark`:
`tasks_passed = sum(1 for r if r.passed)`,
`tasks_failed = len - tasks_passed`, and the average score guarded by the
emptiness test. -/
def aggregate (rs : List TaskResult) : BenchmarkResult :=
  let tasksPassed := (rs.filter (fun r => r.passed)).length
  let avg : ℚ :=
    if rs.isEmpty then 0 else (rs.map (fun r => r.score)).sum / (rs.length : ℚ)
  ⟨rs.length, tasksPassed, (rs.length : Int) - (tasksPassed : Int), avg, rs⟩

/-- Embedding of `run_benchmark` from the task list onward: with no tasks it
raises `ValueError("No tasks found for source ...")`; otherwise it runs the
per-task loop (one `PipelineOutcome` per task) and aggregates. -/
def runBenchmark (source : List Char) (outcomes : List PipelineOutcome) :
    Except (List Char) BenchmarkResult :=
  if outcomes.isEmpty then
    Except.error ("No tasks found for source ".data ++ source)
  else Except.ok (aggregate (outcomes.map processTask))

/-- Pass rate as worded by the specification (§4.4):
`passed / (passed + failed)` if `passed + failed > 0`, else `0.0`. -/
def specPassRate (p f : Int) : ℚ :=
  if p + f > 0 then (p : ℚ) / ((p : ℚ) + (f : ℚ)) else 0

/-- Correctness as worded by the specification: `1.0` if the overall pass
boolean is true, else the pass rate. -/
def specCorrectness (p f : Int) (overall : Bool) : ℚ :=
  if overall then 1 else specPassRate p f

/-- Quality as worded by the specification: `1.0` if the overall pass boolean
is true, else `0.5`. -/
def specQuality (overall : Bool) : ℚ :=
  if overall then 1 else 0.5

/-- Composite score as worded by the specification:
`0.50 * pass_rate + 0.30 * correctness + 0.20 * quality`. -/
def specScore (p f : Int) (overall : Bool) : ℚ :=
  0.50 * specPassRate p f + 0.30 * specCorrectness p f overall +
    0.20 * specQuality overall

/-- C1: for every evaluation, the returned composite score equals
`0.50 * pass_rate + 0.30 * correctness + 0.20 * quality` with
`pass_rate = p / (p + f)` when `p + f > 0` and `0.0` otherwise,
`correctness = 1.0` when the overall pass boolean is true and `pass_rate`
otherwise, and `quality = 1.0` when the overall pass boolean is true and
`0.5` otherwise; in particular `p = 8, f = 2`, overall pass false gives
`0.74`, and `p + f = 0` with overall pass true gives exactly `0.5`. -/
theorem c1_scorer_matches_spec :
    (∀ (p f : Int) (overall : Bool),
      evaluateScore p f overall = specScore p f overall) ∧
    evaluateScore 8 2 false = 0.74 ∧
    evaluateScore 0 0 true = 0.5 := by
  refine ⟨fun p f overall => rfl, ?_, ?_⟩ <;> norm_num [evaluateScore, passRate]

/-- C4: on a sandbox timeout, `run_tests` returns pass `false`, passed count
`0`, failed-count sentinel `-1`, exactly one synthetic error entry describing
the 60-second timeout, and an empty transcript; the embedded function is
total, so it neither raises nor hangs. -/
theorem c4_timeout_result :
    runTests ExecOutcome.timeout =
      (⟨false, 0, -1, [timeoutMsg], []⟩ : RunnerResult) ∧
    (runTests ExecOutcome.timeout).errors.length = 1 ∧
    timeoutMsg = "Test execution timed out after 60s".data ∧
    runnerTimeout = 60 := by
  refine ⟨rfl, rfl, rfl, rfl⟩

/-- C10: on the timeout / launch-failure sentinel (`passed = false`,
`num_passed = 0`, `num_failed = -1`) the evaluator's guard
`passed + failed > 0` is false, so the pass rate is `0.0` with no division
error, and the returned score is exactly
`0.1 = 0.50 * 0.0 + 0.30 * 0.0 + 0.20 * 0.5`, with `passed = false` and
`tests_failed = -1` recorded in the details. -/
theorem c10_sentinel_scores_tenth :
    ∀ m : List Char,
      ¬((0 : Int) + (-1) > 0) ∧
      passRate 0 (-1) = 0 ∧
      runTests ExecOutcome.timeout =
        (⟨false, 0, -1, [timeoutMsg], []⟩ : RunnerResult) ∧
      (evaluate (.run ExecOutcome.timeout)).score = 0.1 ∧
      (evaluate (.run ExecOutcome.timeout)).passed = false ∧
      (evaluate (.run ExecOutcome.timeout)).details.tests_failed = -1 ∧
      (evaluate (.run (ExecOutcome.launchError m))).score = 0.1 ∧
      (evaluate (.run (ExecOutcome.launchError m))).passed = false ∧
      (evaluate (.run (ExecOutcome.launchError m))).details.tests_failed = -1 := by
  intro m
  refine ⟨by decide, by norm_num [passRate], rfl, ?_, rfl, rfl, ?_, rfl, rfl⟩ <;>
    show evaluateScore 0 (-1) false = 0.1 <;>
    norm_num [evaluateScore, passRate]

/-- C2 counterexample: a sandbox timeout is a failure of the task's pipeline
(it is the caught `subprocess.TimeoutExpired`), yet the task result produced
for it carries score `0.1`, not `0.0` as the claim states. -/
theorem c2_counterexample :
    (processTask (Except.ok (EvalInput.run ExecOutcome.timeout))).passed = false ∧
    (processTask (Except.ok (EvalInput.run ExecOutcome.timeout))).score = 0.1 ∧
    (0.1 : ℚ) ≠ 0 := by
  refine ⟨rfl, ?_, by norm_num⟩
  show evaluateScore 0 (-1) false = 0.1
  norm_num [evaluateScore, passRate]

/-- C2 (amended): no exception raised during a task's pipeline propagates
past the loop boundary — the per-task step is total and the loop produces one
result per task; an exception that reaches the loop boundary is captured as a
`TaskResult` with score `0.0` and `passed = false`; sandbox timeout and
launch failure, however, are absorbed inside the test runner and yield a
`TaskResult` with `passed = false` and score `0.1`. -/
theorem c2_loop_isolation_amended :
    ∀ (outcomes : List PipelineOutcome) (e m : List Char),
      (outcomes.map processTask).length = outcomes.length ∧
      (processTask (Except.error e)).score = 0 ∧
      (processTask (Except.error e)).passed = false ∧
      (processTask (Except.ok (EvalInput.run ExecOutcome.timeout))).score = 0.1 ∧
      (processTask (Except.ok (EvalInput.run ExecOutcome.timeout))).passed = false ∧
      (processTask (Except.ok (EvalInput.run (ExecOutcome.launchError m)))).score = 0.1 ∧
      (processTask (Except.ok (EvalInput.run (ExecOutcome.launchError m)))).passed = false := by
  intro outcomes e m
  refine ⟨List.length_map _ _, rfl, rfl, ?_, rfl, ?_, rfl⟩ <;>
    show evaluateScore 0 (-1) false = 0.1 <;>
    norm_num [evaluateScore, passRate]

/-- C7 counterexample: on the empty task sequence `run_benchmark` does not
return a `RunResult` at all — it raises
`ValueError("No tasks found for source ...")` before the loop. -/
theorem c7_counterexample :
    runBenchmark "bigcodebench".data [] =
      Except.error "No tasks found for source bigcodebench".data ∧
    ¬∃ r : BenchmarkResult,
        runBenchmark "bigcodebench".data [] = Except.ok r := by
  constructor
  · rfl
  · rintro ⟨r, hr⟩
    simp [runBenchmark] at hr

/-- C7 (amended): the aggregation guarding the mean by the emptiness test
turns an empty result list into totals `0`, `tasks_passed = 0`,
`tasks_failed = 0`, `average_score = 0.0` and an empty result sequence with
no division-by-zero; but `run_benchmark` never reaches it with an empty task
sequence — it raises `ValueError("No tasks found for source ...")` instead of
returning a `RunResult`. -/
theorem c7_empty_run_amended :
    aggregate [] = (⟨0, 0, 0, 0, []⟩ : BenchmarkResult) ∧
    ∀ source : List Char,
      runBenchmark source [] =
        Except.error ("No tasks found for source ".data ++ source) := by
  exact ⟨rfl, fun source => rfl⟩

/-- C9: every `RunResult` produced by the evaluation loop satisfies
`tasks_passed + tasks_failed = total_tasks`, where `tasks_passed` counts the
task results with `passed = true`. -/
theorem c9_pass_fail_partition :
    ∀ (source : List Char) (outcomes : List PipelineOutcome)
      (r : BenchmarkResult),
      runBenchmark source outcomes = Except.ok r →
      (r.tasks_passed : Int) + r.tasks_failed = (r.total_tasks : Int) ∧
      r.tasks_passed =
        (r.task_results.filter (fun t => t.passed)).length := by
  intro source outcomes r h
  unfold runBenchmark at h
  split at h
  · cases h
  · cases h
    exact ⟨by simp only [aggregate]; ring, rfl⟩

/-- Witness for C9 at a concrete one-task run. -/
theorem c9_pass_fail_partition_witness :
    ((aggregate ([Except.error "boom".data].map processTask)).tasks_passed : Int) +
        (aggregate ([Except.error "boom".data].map processTask)).tasks_failed =
      ((aggregate ([Except.error "boom".data].map processTask)).total_tasks : Int) ∧
    (aggregate ([Except.error "boom".data].map processTask)).tasks_passed =
      ((aggregate ([Except.error "boom".data].map processTask)).task_results.filter
          (fun t => t.passed)).length :=
  c9_pass_fail_partition "x".data [Except.error "boom".data] _ rfl

/-- C6 counterexample: on the transcript `"a PASSED PASSED\nb ERROR x"` with
exit code `0`, the interpreted passed count is the substring-occurrence count
`2` while only `1` transcript line matches the passed marker, and the error
list is empty even though a transcript line contains `ERROR` — both contrary
to the claim. -/
theorem c6_counterexample :
    (runTests (ExecOutcome.completed 0 "a PASSED PASSED\nb ERROR x".data [])).num_passed
        = 2 ∧
    ((("a PASSED PASSED\nb ERROR x".data).splitOn '\n').filter
          (fun l => containsSub " PASSED".data l)).length = 1 ∧
    (runTests (ExecOutcome.completed 0 "a PASSED PASSED\nb ERROR x".data [])).num_passed
        ≠ (((("a PASSED PASSED\nb ERROR x".data).splitOn '\n').filter
              (fun l => containsSub " PASSED".data l)).length : Int) ∧
    (runTests (ExecOutcome.completed 0 "a PASSED PASSED\nb ERROR x".data [])).passed
        = true ∧
    (runTests (ExecOutcome.completed 0 "a PASSED PASSED\nb ERROR x".data [])).errors
        = [] ∧
    (("a PASSED PASSED\nb ERROR x".data).splitOn '\n').filter hasErrorMarker
        = ["b ERROR x".data] := by
  refine ⟨by decide, by decide, by decide, rfl, rfl, by decide⟩

/-- C6 (amended): for every completed run, the interpreted passed count is
the number of non-overlapping occurrences of the `" PASSED"` marker in the
transcript (a line holding the marker twice counts twice), the failed count
likewise for `" FAILED"`, and the error list holds every transcript line
containing `"FAILED"` or `"ERROR"`, verbatim and in original order, but only
when the overall pass boolean is false; when it is true the error list is
empty. -/
theorem c6_interpreter_amended :
    ∀ (rc : Int) (out err : List Char),
      (runTests (.completed rc out err)).num_passed =
        (countOccur " PASSED".data (out ++ err) : Int) ∧
      (runTests (.completed rc out err)).num_failed =
        (countOccur " FAILED".data (out ++ err) : Int) ∧
      (runTests (.completed rc out err)).passed = (rc == 0) ∧
      (runTests (.completed rc out err)).errors =
        (if rc == 0 then []
         else ((out ++ err).splitOn '\n').filter hasErrorMarker) ∧
      (runTests (.completed rc out err)).output = out ++ err := by
  intro rc out err
  exact ⟨rfl, rfl, rfl, rfl, rfl⟩

/-- The pass rate lies in the unit interval whenever both counts are
non-negative. -/
theorem passRate_bounds (np nf : Int) (hnp : 0 ≤ np) (hnf : 0 ≤ nf) :
    0 ≤ passRate np nf ∧ passRate np nf ≤ 1 := by
  unfold passRate
  split
  case isTrue h =>
    have hsum : (0 : ℚ) < (np : ℚ) + (nf : ℚ) := by
      have h2 : (0 : Int) < np + nf := h
      exact_mod_cast h2
    constructor
    · apply div_nonneg _ (le_of_lt hsum)
      exact_mod_cast hnp
    · rw [div_le_one hsum]
      have : (0 : ℚ) ≤ (nf : ℚ) := by exact_mod_cast hnf
      linarith
  case isFalse h => norm_num

/-- The composite score lies in the unit interval whenever both counts are
non-negative. -/
theorem evaluateScore_bounds (np nf : Int) (b : Bool) (hnp : 0 ≤ np)
    (hnf : 0 ≤ nf) :
    0 ≤ evaluateScore np nf b ∧ evaluateScore np nf b ≤ 1 := by
  obtain ⟨h0, h1⟩ := passRate_bounds np nf hnp hnf
  unfold evaluateScore
  cases b <;> simp only [Bool.false_eq_true, if_false, if_true] <;>
    constructor <;> nlinarith [h0, h1]

/-- C3: along every path of the pipeline — normal evaluation, file-read
failure, timeout, launch failure, or a caught per-task exception — the score
of the produced `TaskResult` lies in the closed interval `[0, 1]`. -/
theorem c3_score_in_unit_interval :
    ∀ po : PipelineOutcome,
      0 ≤ (processTask po).score ∧ (processTask po).score ≤ 1 := by
  intro po
  match po with
  | .error e => exact ⟨le_refl 0, by show (0 : ℚ) ≤ 1; norm_num⟩
  | .ok (.fileReadError m) => exact ⟨le_refl 0, by show (0 : ℚ) ≤ 1; norm_num⟩
  | .ok (.run (.completed rc out err)) =>
    show 0 ≤ evaluateScore _ _ _ ∧ evaluateScore _ _ _ ≤ 1
    exact evaluateScore_bounds _ _ _ (Int.natCast_nonneg _) (Int.natCast_nonneg _)
  | .ok (.run .timeout) =>
    show 0 ≤ evaluateScore 0 (-1) false ∧ evaluateScore 0 (-1) false ≤ 1
    norm_num [evaluateScore, passRate]
  | .ok (.run (.launchError m)) =>
    show 0 ≤ evaluateScore 0 (-1) false ∧ evaluateScore 0 (-1) false ≤ 1
    norm_num [evaluateScore, passRate]

/-- The block-choosing for-loop equals `List.find?` on the block filter. -/
theorem firstGoodBlock_eq_find :
    ∀ bs : List (List Char), firstGoodBlock bs = bs.find? hasDefOrImport := by
  intro bs
  induction bs with
  | nil => rfl
  | cons b bs ih =>
    cases h : hasDefOrImport b <;>
      simp [firstGoodBlock, List.find?_cons, h, ih]

/-- Once `inCode` is true the accumulation loop keeps every remaining line. -/
theorem scanLines_true : ∀ ls : List (List Char), scanLines ls true = ls := by
  intro ls
  induction ls with
  | nil => rfl
  | cons l ls ih => simp [scanLines, ih]

/-- Starting with `inCode = false`, the accumulation loop drops the longest
non-triggering prefix of the lines and keeps everything from the first
triggering line on. -/
theorem scanLines_false :
    ∀ ls : List (List Char),
      scanLines ls false = ls.dropWhile (fun l => !(triggers l)) := by
  intro ls
  induction ls with
  | nil => rfl
  | cons l ls ih =>
    cases h : triggers l
    · simpa [scanLines, h, List.dropWhile_cons] using ih
    · simp [scanLines, h, List.dropWhile_cons, scanLines_true]

/-- The head of a `dropWhile` result never satisfies the predicate. -/
theorem dropWhile_head_false (p : Char → Bool) :
    ∀ (s : List Char) (c : Char) (l2 : List Char),
      s.dropWhile p = c :: l2 → p c = false := by
  intro s
  induction s with
  | nil => intro c l2 h; cases h
  | cons a s ih =>
    intro c l2 h
    rw [List.dropWhile_cons] at h
    by_cases ha : p a = true
    · rw [if_pos ha] at h
      exact ih c l2 h
    · rw [if_neg ha] at h
      cases h
      simpa using ha

/-- Python `strip` is idempotent. -/
theorem pyStrip_idem (s : List Char) : pyStrip (pyStrip s) = pyStrip s := by
  unfold pyStrip
  have hdw :
      (List.rdropWhile pyWhitespace (s.dropWhile pyWhitespace)).dropWhile
          pyWhitespace =
        List.rdropWhile pyWhitespace (s.dropWhile pyWhitespace) := by
    obtain ⟨t, ht⟩ :=
      List.rdropWhile_prefix pyWhitespace (s.dropWhile pyWhitespace)
    cases hX : List.rdropWhile pyWhitespace (s.dropWhile pyWhitespace) with
    | nil => rfl
    | cons c X2 =>
      rw [hX] at ht
      have hc : pyWhitespace c = false :=
        dropWhile_head_false pyWhitespace s c (X2 ++ t) ht.symm
      rw [List.dropWhile_cons, if_neg (by simp [hc])]
  rw [hdw, List.rdropWhile_idempotent]

/-- C5: the code extractor equals the reference algorithm worded by the
specification: strip the input; if fenced blocks exist, return the first
block body containing an import statement or a function-definition keyword,
else the first block body stripped; otherwise accumulate lines from the first
import-style or definition-keyword line through the end, joined and stripped;
otherwise the original stripped input.  Both sides are total functions, so
the extractor never raises. -/
theorem c5_extractor_matches_reference :
    ∀ s : List Char, clean s = cleanSpec s := by
  intro s
  simp only [clean, cleanSpec]
  cases hb : findBlocks (pyStrip s) with
  | cons b0 bs =>
    dsimp only
    rw [firstGoodBlock_eq_find]
  | nil =>
    dsimp only
    rw [scanLines_false]
    cases he :
        (((pyStrip s).splitOn '\n').dropWhile (fun l => !(triggers l))).isEmpty
    · simp only [he, Bool.false_eq_true, if_false]
    · simp only [he, if_true]
      exact pyStrip_idem s

/-- C8 counterexample: the extractor is not idempotent — on the fenced input
`"` three backticks `\nx = 1\nimport os\n` three backticks `"` it returns
`"x = 1\nimport os"`, and a second application drops the leading line and
returns `"import os"`. -/
theorem c8_counterexample :
    clean (clean "```\nx = 1\nimport os\n```".data) ≠
      clean "```\nx = 1\nimport os\n```".data := by
  decide

/-- A stripped string without fenced blocks is a fixed point of the extractor
as soon as the line scan triggers at the first line or not at all. -/
theorem clean_fixed_of_noBlocks (r : List Char) (h1 : pyStrip r = r)
    (h2 : findBlocks r = [])
    (h3 :
      (r.splitOn '\n').dropWhile (fun l => !(triggers l)) = r.splitOn '\n' ∨
      (r.splitOn '\n').dropWhile (fun l => !(triggers l)) = []) :
    clean r = r := by
  simp only [clean]
  rw [h1, h2]
  dsimp only
  rw [scanLines_false]
  rcases h3 with h3 | h3
  · rw [h3]
    cases hsp : r.splitOn '\n' with
    | nil => simpa using h1
    | cons a as =>
      simp only [List.isEmpty_cons, Bool.false_eq_true, if_false]
      rw [← hsp, List.intercalate_splitOn]
      exact h1
  · rw [h3]
    simpa using h1

/-- Every extractor output is already stripped. -/
theorem pyStrip_clean (s : List Char) : pyStrip (clean s) = clean s := by
  simp only [clean]
  cases hb : findBlocks (pyStrip s) with
  | cons b0 bs =>
    dsimp only
    cases hf : firstGoodBlock (b0 :: bs) with
    | some b => exact pyStrip_idem b
    | none => exact pyStrip_idem b0
  | nil =>
    dsimp only
    cases hc : (scanLines ((pyStrip s).splitOn '\n') false).isEmpty
    · simp only [hc, Bool.false_eq_true, if_false]
      exact pyStrip_idem _
    · simp only [hc, if_true]
      rw [pyStrip_idem, pyStrip_idem]

/-- C8 (amended): applying the extractor to its own output returns that
output unchanged whenever the output contains no fenced block and its line
scan triggers at the first line or not at all; when the output has prose
lines before its first import/def/from line — as in the counterexample — a
second pass drops those leading lines instead. -/
theorem c8_idempotent_amended :
    ∀ s : List Char,
      findBlocks (clean s) = [] →
      (((clean s).splitOn '\n').dropWhile (fun l => !(triggers l)) =
          (clean s).splitOn '\n' ∨
        ((clean s).splitOn '\n').dropWhile (fun l => !(triggers l)) = []) →
      clean (clean s) = clean s := by
  intro s h2 h3
  exact clean_fixed_of_noBlocks (clean s) (pyStrip_clean s) h2 h3

/-- Witness for C8 (amended) at a concrete trigger-free input. -/
theorem c8_idempotent_amended_witness :
    findBlocks (clean "hello world".data) = [] ∧
    clean (clean "hello world".data) = clean "hello world".data :=
  ⟨by decide,
    c8_idempotent_amended "hello world".data (by decide) (Or.inr (by decide))⟩

end Benchmark
